import Mathlib

/-!
Shallow embedding of `src/main.py` (a small FastAPI service that forwards
prompts to an LLM provider, records each exchange as a `Job`, persists the
job list to a JSON file, and resolves static model-capability metadata by
first-prefix match).

The upstream provider call (`openai.chat.completions.create`) is modelled as
an oracle parameter returning either a response text or a raised exception;
randomness (`uuid.uuid4()`), the clock (`datetime.now()`) and file-system
outcomes are likewise explicit parameters, so every handler is a pure
function of the request, the oracle and the ambient state.
-/

namespace MainPy

/-! ### Timestamps

Python `datetime` values carry year/month/day/hour/minute/second/microsecond
(naive datetimes, as produced by `datetime.now()`).  `Job.created_at` is
serialized with `datetime.isoformat()` and reconstructed with
`datetime.fromisoformat()` (main.py lines 53-56 and 64).
-/

structure DateTime where
  year : Nat
  month : Nat
  day : Nat
  hour : Nat
  minute : Nat
  second : Nat
  microsecond : Nat
deriving DecidableEq, Repr

/-- The invariants Python `datetime` enforces at construction (day bound is
the generous 31; exact month lengths never matter below). -/
def isValidDateTime (t : DateTime) : Bool :=
  1 ≤ t.year && t.year ≤ 9999 &&
  1 ≤ t.month && t.month ≤ 12 &&
  1 ≤ t.day && t.day ≤ 31 &&
  t.hour ≤ 23 && t.minute ≤ 59 && t.second ≤ 59 &&
  t.microsecond ≤ 999999

/-- Decimal digit to its character. -/
def digitChar (d : Nat) : Char := Char.ofNat (48 + d)

/-- Zero-padded fixed-width decimal rendering, as Python `%0kd` for values
below `10^k` (datetime fields always are). -/
def padNum : Nat → Nat → List Char
  | 0, _ => []
  | k+1, n => padNum k (n / 10) ++ [digitChar (n % 10)]

/-- Model of `datetime.isoformat()`: `YYYY-MM-DDTHH:MM:SS`, with `.ffffff`
appended exactly when `microsecond` is nonzero. -/
def isoformat (t : DateTime) : String :=
  ⟨padNum 4 t.year ++ '-' ::
   (padNum 2 t.month ++ '-' ::
    (padNum 2 t.day ++ 'T' ::
     (padNum 2 t.hour ++ ':' ::
      (padNum 2 t.minute ++ ':' ::
       (padNum 2 t.second ++
        (if t.microsecond = 0 then [] else '.' :: padNum 6 t.microsecond))))))⟩

/-- Parse one decimal digit. -/
def digit? (c : Char) : Option Nat :=
  if 48 ≤ c.toNat ∧ c.toNat ≤ 57 then some (c.toNat - 48) else none

/-- Left-to-right accumulation of a decimal digit string. -/
def parseFixedAux (acc : Nat) : List Char → Option Nat
  | [] => some acc
  | c :: cs =>
    match digit? c with
    | some d => parseFixedAux (acc * 10 + d) cs
    | none => none

/-- Consume exactly `k` characters as a decimal number. -/
def grabNum (k : Nat) (cs : List Char) : Option (Nat × List Char) :=
  if (cs.take k).length = k then
    (parseFixedAux 0 (cs.take k)).map (fun n => (n, cs.drop k))
  else none

/-- Consume one expected literal character. -/
def expectChar (c : Char) : List Char → Option (List Char)
  | [] => none
  | x :: xs => if x = c then some xs else none

/-- Model of `datetime.fromisoformat`, on the image of `isoformat`: the full
`YYYY-MM-DDTHH:MM:SS` shape with an optional 6-digit fraction, with the
`datetime` constructor validation applied; every other input fails (raises,
here `none`). -/
def fromisoformat (s : String) : Option DateTime := do
  let cs := s.data
  let (y, cs) ← grabNum 4 cs
  let cs ← expectChar '-' cs
  let (mo, cs) ← grabNum 2 cs
  let cs ← expectChar '-' cs
  let (d, cs) ← grabNum 2 cs
  let cs ← expectChar 'T' cs
  let (h, cs) ← grabNum 2 cs
  let cs ← expectChar ':' cs
  let (mi, cs) ← grabNum 2 cs
  let cs ← expectChar ':' cs
  let (sec, cs) ← grabNum 2 cs
  let us ←
    match cs with
    | [] => some 0
    | '.' :: f => if f.length = 6 then parseFixedAux 0 f else none
    | _ => none
  let t : DateTime := ⟨y, mo, d, h, mi, sec, us⟩
  if isValidDateTime t then some t else none

/-! ### The Job model and persistence (main.py lines 45-77) -/

structure Job where
  id : String
  content : String
  model : String
  response : String
  created_at : DateTime
  status : String
deriving DecidableEq, Repr

/-- One object of the persisted JSON array: every field a JSON scalar, the
timestamp in its `isoformat` text form (the `json_encoders` config). -/
structure JobRecord where
  id : String
  content : String
  model : String
  response : String
  created_at : String
  status : String
deriving DecidableEq, Repr

/-- Serialization of one job to its file form (`json.loads(job.json())`). -/
def recordOfJob (j : Job) : JobRecord :=
  ⟨j.id, j.content, j.model, j.response, isoformat j.created_at, j.status⟩

/-- Reconstruction of one job from its file form
(the `Job(...)` call rebuilding `created_at` via `datetime.fromisoformat`);
an unparseable timestamp raises, here `none`. -/
def jobOfRecord (r : JobRecord) : Option Job :=
  (fromisoformat r.created_at).map fun t =>
    ⟨r.id, r.content, r.model, r.response, t, r.status⟩

/-- The list comprehension of `load_jobs`: one raised exception aborts the
whole reconstruction. -/
def mapJobs : List JobRecord → Option (List Job)
  | [] => some []
  | r :: rs =>
    match jobOfRecord r, mapJobs rs with
    | some j, some js => some (j :: js)
    | _, _ => none

/-- State of the persisted file `data/jobs.json` as `load_jobs` can observe
it: absent, present but unreadable (open or `json.load` raises), or a
well-formed JSON array of job objects. -/
inductive FileState where
  | absent
  | unreadable
  | stored (recs : List JobRecord)
deriving DecidableEq, Repr

/-- The loader `load_jobs` (main.py lines 58-67): `[]` when the file does not exist;
otherwise parse it, and on ANY exception (read failure, malformed JSON,
bad timestamp) print the error and return `[]`. -/
def load_jobs : FileState → List Job
  | .absent => []
  | .unreadable => []
  | .stored recs =>
    match mapJobs recs with
    | some js => js
    | none => []

/-- The serialized array `save_jobs` writes (main.py line 72). -/
def save_jobs (jobs : List Job) : List JobRecord :=
  jobs.map recordOfJob

/-! ### HTTP-level outcomes -/

/-- A raised `HTTPException`. -/
structure HTTPError where
  status_code : Nat
  detail : String
deriving DecidableEq, Repr

/-- Server state: the in-memory `jobs` list plus the persisted file. -/
structure ServerState where
  jobs : List Job
  file : FileState
deriving DecidableEq, Repr

/-! ### Upstream message assembly (main.py lines 104-125) -/

/-- One block of a multimodal message content list. -/
inductive ContentPart where
  | text (s : String)
  | image_url (url : String)
deriving DecidableEq, Repr

/-- The `content` of a chat message: a plain string in the text-only branch,
a list of blocks in the image branch. -/
inductive MsgContent where
  | str (s : String)
  | parts (l : List ContentPart)
deriving DecidableEq, Repr

structure ChatMessage where
  role : String
  content : MsgContent
deriving DecidableEq, Repr

/-- Standard base64 alphabet. -/
def b64Alphabet : List Char :=
  "ABCDEFGHIJKLMNOPQRSTUVWXYZabcdefghijklmnopqrstuvwxyz0123456789+/".data

def b64Char (n : Nat) : Char := b64Alphabet.getD n '='

/-- Model of `base64.b64encode` on a byte list (each entry < 256). -/
def b64encode : List Nat → List Char
  | b1 :: b2 :: b3 :: rest =>
    let n := b1 * 65536 + b2 * 256 + b3
    b64Char (n / 262144 % 64) :: b64Char (n / 4096 % 64) ::
      b64Char (n / 64 % 64) :: b64Char (n % 64) :: b64encode rest
  | [b1, b2] =>
    let n := b1 * 65536 + b2 * 256
    [b64Char (n / 262144 % 64), b64Char (n / 4096 % 64), b64Char (n / 64 % 64), '=']
  | [b1] =>
    let n := b1 * 65536
    [b64Char (n / 262144 % 64), b64Char (n / 4096 % 64), '=', '=']
  | [] => []

/-- The hard-coded vision model (main.py line 121). -/
def visionModel : String := "gpt-4o-2024-11-20"

/-- An uploaded image, as the byte list `await image.read()` yields. -/
abbrev ImageBytes := List Nat

/-- Python truthiness of `images: Optional[List[UploadFile]]`: `None` and
`[]` are both falsy in `if images:`. -/
def imageList (images : Option (List ImageBytes)) : List ImageBytes :=
  images.getD []

/-- The model string actually used for the upstream call and the stored job:
reassigned to `visionModel` whenever `images` is truthy (main.py line 121). -/
def effectiveModel (model : String) (images : Option (List ImageBytes)) : String :=
  if (imageList images).isEmpty then model else visionModel

/-- The `messages` payload built for the upstream call. -/
def buildMessages (prompt : String) (images : Option (List ImageBytes)) :
    List ChatMessage :=
  if (imageList images).isEmpty then
    [⟨"user", .str prompt⟩]
  else
    [⟨"user", .parts (ContentPart.text prompt ::
      (imageList images).map (fun img =>
        ContentPart.image_url ("data:image/jpeg;base64," ++ ⟨b64encode img⟩)))⟩]

/-- Python slicing `s[:k]`, at the character-list level. -/
def strTake (s : String) (k : Nat) : String := ⟨s.data.take k⟩

/-- Python `s.lower()`, at the character-list level. -/
def strLower (s : String) : String := ⟨s.data.map Char.toLower⟩

/-- The job identifier: `"llmjobid:" + str(uuid.uuid4())[:5].lower()`, with
the random UUID text an explicit input `tok`. -/
def makeJobId (tok : String) : String :=
  "llmjobid:" ++ strLower (strTake tok 5)

/-- The upstream `openai.chat.completions.create` call: given the model and
messages, either a response text or the text of a raised exception. -/
abbrev Upstream := String → List ChatMessage → Except String String

/-- The handler `create_job` (main.py lines 97-150).  Explicit inputs for the
nondeterminism: `oracle` the upstream call, `tok` the random UUID text,
`now` the clock, `writeOk` whether the `save_jobs` file write succeeds
(a failed write is caught and printed inside `save_jobs`, so it reaches
neither the job list nor the HTTP response).  Returns the HTTP outcome
(`Job` body or raised `HTTPException`) and the new server state. -/
def create_job (oracle : Upstream) (prompt : String) (model : String)
    (images : Option (List ImageBytes)) (tok : String) (now : DateTime)
    (writeOk : Bool) (st : ServerState) :
    Except HTTPError Job × ServerState :=
  match oracle (effectiveModel model images) (buildMessages prompt images) with
  | .error e => (.error ⟨500, e⟩, st)
  | .ok resp =>
    let job : Job :=
      ⟨makeJobId tok, prompt, effectiveModel model images, resp, now, "completed"⟩
    let jobs := st.jobs ++ [job]
    let file := if writeOk then FileState.stored (save_jobs jobs) else st.file
    (.ok job, ⟨jobs, file⟩)

/-- The handler `list_jobs` (main.py lines 152-154): returns the list as is. -/
def list_jobs (st : ServerState) : List Job := st.jobs

/-- The handler `get_job` (main.py lines 156-161): first linear-scan match on the
identifier, 404 when none. -/
def get_job (st : ServerState) (job_id : String) : Except HTTPError Job :=
  match st.jobs.find? (fun job => job.id == job_id) with
  | none => .error ⟨404, "Job not found"⟩
  | some job => .ok job

/-- Per-request inputs of one `create_job` call (the request fields plus the
drawn randomness, clock reading and file-write outcome). -/
structure CreateInput where
  prompt : String
  model : String
  images : Option (List ImageBytes)
  tok : String
  now : DateTime
  writeOk : Bool
deriving Repr

/-- A sequence of `create_job` calls threaded through the server state. -/
def runCreates (oracle : Upstream) : List CreateInput → ServerState → ServerState
  | [], st => st
  | i :: is, st =>
    runCreates oracle is
      (create_job oracle i.prompt i.model i.images i.tok i.now i.writeOk st).2

/-! ### Model capability resolution (main.py lines 163-273)

The heterogeneous capability dicts of `list_models` are embedded
structurally: every one of the six dicts (five known entries and the
not-found sentinel) has exactly the top-level keys `text_input`,
`text_output`, `image_input`, `image_output`, `reasoning`, `speed`,
`pricing`; a top-level value is a bool, an integer score, or the literal
string `"Not found"`.  The nested `pricing` dict always has keys `input`
and `output` and has the key `image` only in the `gpt-4-vision-preview`
entry, so `image` is an `Option`.  Dollar amounts are exact in units of
1/10000 dollar (e.g. `0.0005` is `5`): no arithmetic is done on them, so
the scaling is a faithful injective rendering of the literals. -/

/-- A top-level capability value: a bool flag, an integer score, or the
`"Not found"` marker string. -/
inductive CVal where
  | flag (b : Bool)
  | score (n : Nat)
  | notFound
deriving DecidableEq, Repr

/-- A pricing value: a dollar amount (in 1/10000 dollar) or the
`"Not found"` marker string. -/
inductive PVal where
  | money (tenThousandths : Nat)
  | notFound
deriving DecidableEq, Repr

/-- The nested `pricing` dict; `image = none` means the key is absent. -/
structure Pricing where
  input : PVal
  output : PVal
  image : Option PVal
deriving DecidableEq, Repr

/-- One capability record of the static table. -/
structure Capability where
  text_input : CVal
  text_output : CVal
  image_input : CVal
  image_output : CVal
  reasoning : CVal
  speed : CVal
  pricing : Pricing
deriving DecidableEq, Repr

def gpt4VisionCapability : Capability :=
  ⟨.flag true, .flag true, .flag true, .flag false, .score 5, .score 3,
   ⟨.money 100, .money 300, some (.money 200)⟩⟩

def gpt4Capability : Capability :=
  ⟨.flag true, .flag true, .flag false, .flag false, .score 5, .score 3,
   ⟨.money 100, .money 300, none⟩⟩

def gpt35TurboCapability : Capability :=
  ⟨.flag true, .flag true, .flag false, .flag false, .score 3, .score 5,
   ⟨.money 5, .money 15, none⟩⟩

def dalle3Capability : Capability :=
  ⟨.flag true, .flag false, .flag false, .flag true, .score 4, .score 2,
   ⟨.money 400, .money 800, none⟩⟩

def dalle2Capability : Capability :=
  ⟨.flag true, .flag false, .flag false, .flag true, .score 3, .score 4,
   ⟨.money 200, .money 200, none⟩⟩

/-- The static table `model_capabilities` (main.py lines 170-232), as the
ordered pair list Python dict iteration yields: declaration order. -/
def model_capabilities : List (String × Capability) :=
  [("gpt-4-vision-preview", gpt4VisionCapability),
   ("gpt-4", gpt4Capability),
   ("gpt-3.5-turbo", gpt35TurboCapability),
   ("dall-e-3", dalle3Capability),
   ("dall-e-2", dalle2Capability)]

/-- The sentinel assigned when no prefix matches (main.py lines 244-256):
all top-level values and the pricing `input`/`output` are the string
`"Not found"`; its pricing dict has NO `image` key. -/
def unknownCapability : Capability :=
  ⟨.notFound, .notFound, .notFound, .notFound, .notFound, .notFound,
   ⟨.notFound, .notFound, none⟩⟩

/-- Python `s.startswith(pre)`, at the character-list level. -/
def startswith (s pre : String) : Bool := pre.data.isPrefixOf s.data

/-- The per-model body of the `list_models` loop (main.py lines 236-256):
scan the table in declaration order, take the capabilities of the first
entry whose key `model.id.startswith(...)`, else the sentinel. -/
def resolveCapability (modelId : String) : Capability :=
  match model_capabilities.find? (fun p => startswith modelId p.1) with
  | some p => p.2
  | none => unknownCapability

/-! ### Oracles and sample data -/

/-- An upstream oracle that always answers (no exception raised). -/
def okOracle (resp : String → List ChatMessage → String) : Upstream :=
  fun m msgs => .ok (resp m msgs)

/-- The job one successful `create_job` call with inputs `i` constructs
(independent of the store contents). -/
def jobOfInput (resp : String → List ChatMessage → String) (i : CreateInput) : Job :=
  ⟨makeJobId i.tok, i.prompt, effectiveModel i.model i.images,
   resp (effectiveModel i.model i.images) (buildMessages i.prompt i.images),
   i.now, "completed"⟩

/-- A sample stored job with a sub-second timestamp component. -/
def sampleJob : Job :=
  ⟨"llmjobid:abc12", "Hello", "gpt-3.5-turbo", "Hi there",
   ⟨2024, 5, 17, 12, 30, 45, 123456⟩, "completed"⟩

/-- A sample stored job with a whole-second timestamp. -/
def sampleJob2 : Job :=
  ⟨"llmjobid:def34", "World", "gpt-4", "Hello!",
   ⟨2024, 5, 17, 12, 30, 46, 0⟩, "completed"⟩

/-- A job whose identifier duplicates `dupJobLate`. -/
def dupJobEarly : Job :=
  ⟨"llmjobid:aaaaa", "first", "gpt-4", "one",
   ⟨2024, 5, 17, 12, 0, 0, 0⟩, "completed"⟩

/-- A later job carrying the same identifier as `dupJobEarly`. -/
def dupJobLate : Job :=
  ⟨"llmjobid:aaaaa", "second", "gpt-4", "two",
   ⟨2024, 5, 17, 12, 0, 1, 0⟩, "completed"⟩

/-- A stored job with an identifier distinct from the duplicated one. -/
def otherJob : Job :=
  ⟨"llmjobid:zzzzz", "zeroth", "gpt-4", "zero",
   ⟨2024, 5, 17, 11, 0, 0, 0⟩, "completed"⟩

/-- A persisted record whose timestamp text cannot be parsed. -/
def badRecord : JobRecord :=
  ⟨"llmjobid:bad00", "Hello", "gpt-4", "Hi", "not-a-timestamp", "completed"⟩

/-- A sample upstream reply function (an oracle that never raises). -/
def sampleResp : String → List ChatMessage → String := fun _ _ => "Hi there"

/-- Sample create request one. -/
def sampleInputA : CreateInput :=
  ⟨"Hello", "gpt-3.5-turbo", none, "aaaaa-1111", ⟨2024, 5, 17, 12, 0, 0, 0⟩, true⟩

/-- Sample create request two. -/
def sampleInputB : CreateInput :=
  ⟨"World", "gpt-4", none, "bbbbb-2222", ⟨2024, 5, 17, 12, 0, 1, 0⟩, false⟩

/-- Sample create request whose random token collides with `sampleInputA`. -/
def sampleInputA2 : CreateInput :=
  ⟨"Again", "gpt-4", none, "aaaaa-3333", ⟨2024, 5, 17, 12, 0, 2, 0⟩, true⟩

/-! ### Helper lemmas -/

theorem padNum_length (k n : Nat) : (padNum k n).length = k := by
  induction k generalizing n with
  | zero => simp [padNum]
  | succ k ih => simp [padNum, ih]

theorem parseFixedAux_append (xs ys : List Char) (acc : Nat) :
    parseFixedAux acc (xs ++ ys) =
      (parseFixedAux acc xs).bind fun a => parseFixedAux a ys := by
  induction xs generalizing acc with
  | nil => simp [parseFixedAux]
  | cons c cs ih =>
    simp only [List.cons_append, parseFixedAux]
    cases digit? c with
    | none => simp
    | some d => simp [ih]

theorem digit?_digitChar : ∀ d, d < 10 → digit? (digitChar d) = some d := by decide

theorem parseFixedAux_padNum (k n acc : Nat) (h : n < 10 ^ k) :
    parseFixedAux acc (padNum k n) = some (acc * 10 ^ k + n) := by
  induction k generalizing n acc with
  | zero =>
    have hn : n = 0 := by simpa using h
    subst hn
    simp [padNum, parseFixedAux]
  | succ k ih =>
    have hdiv : n / 10 < 10 ^ k := by
      rw [Nat.div_lt_iff_lt_mul (by norm_num)]
      calc n < 10 ^ (k + 1) := h
        _ = 10 ^ k * 10 := by ring
    rw [padNum, parseFixedAux_append, ih _ _ hdiv]
    simp only [Option.some_bind, parseFixedAux,
      digit?_digitChar (n % 10) (Nat.mod_lt _ (by norm_num))]
    have hmod : 10 * (n / 10) + n % 10 = n := by omega
    rw [show (acc * 10 ^ k + n / 10) * 10 + n % 10 =
          acc * 10 ^ (k + 1) + (10 * (n / 10) + n % 10) from by ring, hmod]

theorem grabNum_padNum (k n : Nat) (rest : List Char) (h : n < 10 ^ k) :
    grabNum k (padNum k n ++ rest) = some (n, rest) := by
  have hl := padNum_length k n
  rw [grabNum, List.take_left' hl, List.drop_left' hl, if_pos hl,
    parseFixedAux_padNum k n 0 h]
  simp

theorem expectChar_cons (c : Char) (rest : List Char) :
    expectChar c (c :: rest) = some rest := by
  simp [expectChar]

set_option maxHeartbeats 1600000 in
/-- The timestamp serialization round-trip: `fromisoformat` recovers any
valid datetime from its `isoformat` text exactly. -/
theorem fromisoformat_isoformat (t : DateTime) (h : isValidDateTime t = true) :
    fromisoformat (isoformat t) = some t := by
  obtain ⟨y, mo, d, hh, mi, s, us⟩ := t
  have hb : 1 ≤ y ∧ y ≤ 9999 ∧ 1 ≤ mo ∧ mo ≤ 12 ∧ 1 ≤ d ∧ d ≤ 31 ∧
      hh ≤ 23 ∧ mi ≤ 59 ∧ s ≤ 59 ∧ us ≤ 999999 := by
    simpa [isValidDateTime, Bool.and_eq_true, decide_eq_true_eq, and_assoc] using h
  have hy : y < 10 ^ 4 := by omega
  have hmo : mo < 10 ^ 2 := by omega
  have hd : d < 10 ^ 2 := by omega
  have hhh : hh < 10 ^ 2 := by omega
  have hmi : mi < 10 ^ 2 := by omega
  have hs : s < 10 ^ 2 := by omega
  have hus : us < 10 ^ 6 := by omega
  by_cases hzero : us = 0
  · subst hzero
    simp only [fromisoformat, isoformat, reduceIte, grabNum_padNum _ _ _ hy,
      Option.bind_eq_bind, Option.some_bind, expectChar_cons,
      grabNum_padNum _ _ _ hmo, grabNum_padNum _ _ _ hd,
      grabNum_padNum _ _ _ hhh, grabNum_padNum _ _ _ hmi,
      grabNum_padNum _ _ _ hs]
    simp [h]
  · simp only [fromisoformat, isoformat, if_neg hzero, grabNum_padNum _ _ _ hy,
      Option.bind_eq_bind, Option.some_bind, expectChar_cons,
      grabNum_padNum _ _ _ hmo, grabNum_padNum _ _ _ hd,
      grabNum_padNum _ _ _ hhh, grabNum_padNum _ _ _ hmi,
      grabNum_padNum _ _ _ hs]
    simp only [padNum_length, reduceIte, parseFixedAux_padNum 6 us 0 hus,
      Nat.zero_mul, Nat.zero_add, Option.some_bind]
    simp [h]

/-- One job round-trips through its file record form exactly. -/
theorem jobOfRecord_recordOfJob (j : Job) (h : isValidDateTime j.created_at = true) :
    jobOfRecord (recordOfJob j) = some j := by
  simp [jobOfRecord, recordOfJob, fromisoformat_isoformat _ h]

/-- The reconstruction of a saved job list succeeds and is exact. -/
theorem mapJobs_save_jobs (js : List Job)
    (h : ∀ j ∈ js, isValidDateTime j.created_at = true) :
    mapJobs (save_jobs js) = some js := by
  induction js with
  | nil => simp [save_jobs, mapJobs]
  | cons j rest ih =>
    have hj : isValidDateTime j.created_at = true := h j (by simp)
    have hrest := ih fun x hx => h x (by simp [hx])
    simp only [save_jobs, List.map_cons, mapJobs] at *
    rw [jobOfRecord_recordOfJob j hj, hrest]

/-- First-match behaviour of the linear scan. -/
theorem find?_first {α : Type} (p : α → Bool) (pre : List α) (x : α)
    (post : List α) (hpre : ∀ y ∈ pre, p y = false) (hx : p x = true) :
    (pre ++ x :: post).find? p = some x := by
  induction pre with
  | nil => simp [List.find?, hx]
  | cons a rest ih =>
    have ha : p a = false := hpre a (by simp)
    simp only [List.cons_append, List.find?, ha]
    exact ih fun y hy => hpre y (by simp [hy])

/-- A run of successful creations appends exactly one job per call, in call
order. -/
theorem runCreates_jobs (resp : String → List ChatMessage → String)
    (inputs : List CreateInput) (st : ServerState) :
    (runCreates (okOracle resp) inputs st).jobs =
      st.jobs ++ inputs.map (jobOfInput resp) := by
  induction inputs generalizing st with
  | nil => simp [runCreates]
  | cons i rest ih =>
    simp only [runCreates, create_job, okOracle, List.map_cons]
    rw [ih]
    simp [jobOfInput]

/-! ### C1 -/

/-- C1 (counterexample): the identifiers are 5-character truncations of the
random UUID text, so two successful creations can draw colliding tokens;
starting from the empty store, two successful creations whose tokens share
their first five characters yield a 2-job listing whose identifiers are NOT
pairwise distinct, refuting the unconditional uniqueness part of the claim. -/
theorem create_ids_can_collide :
    (list_jobs (runCreates (okOracle sampleResp) [sampleInputA, sampleInputA2]
      ⟨[], .absent⟩)).length = 2 ∧
    ¬ ((list_jobs (runCreates (okOracle sampleResp) [sampleInputA, sampleInputA2]
      ⟨[], .absent⟩)).map Job.id).Nodup := by
  decide

/-- C1 (amended): for every sequence of N successful creations from the
empty store, `list()` returns exactly N jobs, the k-th being the job the
k-th creation constructed (creation order); the identifiers are pairwise
distinct whenever the ids derived from the drawn random tokens are pairwise
distinct — which the code does not itself guarantee. -/
theorem runCreates_list_order_and_ids
    (resp : String → List ChatMessage → String) (inputs : List CreateInput)
    (h : (inputs.map fun i => makeJobId i.tok).Nodup) :
    list_jobs (runCreates (okOracle resp) inputs ⟨[], .absent⟩) =
      inputs.map (jobOfInput resp) ∧
    (list_jobs (runCreates (okOracle resp) inputs ⟨[], .absent⟩)).length =
      inputs.length ∧
    ((list_jobs (runCreates (okOracle resp) inputs ⟨[], .absent⟩)).map Job.id).Nodup := by
  have hjobs : list_jobs (runCreates (okOracle resp) inputs ⟨[], .absent⟩) =
      inputs.map (jobOfInput resp) := by
    simp [list_jobs, runCreates_jobs]
  refine ⟨hjobs, ?_, ?_⟩
  · rw [hjobs, List.length_map]
  · rw [hjobs, List.map_map]
    have hcomp : (Job.id ∘ jobOfInput resp) = fun i => makeJobId i.tok := by
      funext i; rfl
    rw [hcomp]
    exact h

/-- C1 (witness): two successful creations with distinct truncated tokens. -/
theorem runCreates_list_order_and_ids_witness :
    (([sampleInputA, sampleInputB].map fun i => makeJobId i.tok).Nodup) ∧
    (list_jobs (runCreates (okOracle sampleResp) [sampleInputA, sampleInputB]
        ⟨[], .absent⟩) =
      [sampleInputA, sampleInputB].map (jobOfInput sampleResp) ∧
    (list_jobs (runCreates (okOracle sampleResp) [sampleInputA, sampleInputB]
        ⟨[], .absent⟩)).length = 2 ∧
    ((list_jobs (runCreates (okOracle sampleResp) [sampleInputA, sampleInputB]
        ⟨[], .absent⟩)).map Job.id).Nodup) :=
  ⟨by decide, runCreates_list_order_and_ids sampleResp [sampleInputA, sampleInputB]
    (by decide)⟩

/-! ### C2 -/

/-- C2: when the upstream chat-completion call raises, `create_job` responds
500 with the stringified exception as detail, and the server state (job list
and file) is exactly the prior one: no job is appended. -/
theorem create_job_upstream_error_500_store_unchanged
    (oracle : Upstream) (prompt model : String) (images : Option (List ImageBytes))
    (tok : String) (now : DateTime) (writeOk : Bool) (st : ServerState) (e : String)
    (h : oracle (effectiveModel model images) (buildMessages prompt images) =
      .error e) :
    create_job oracle prompt model images tok now writeOk st =
      (.error ⟨500, e⟩, st) := by
  simp [create_job, h]

/-- C2 (witness): an upstream raising on an invalid model string. -/
theorem create_job_upstream_error_witness :
    ((fun _ _ => (.error "model bad-model does not exist" : Except String String))
        (effectiveModel "bad-model" none) (buildMessages "Hello" none) =
      .error "model bad-model does not exist") ∧
    create_job (fun _ _ => .error "model bad-model does not exist") "Hello"
        "bad-model" none "tok-1" ⟨2024, 5, 17, 12, 0, 0, 0⟩ true ⟨[], .absent⟩ =
      (.error ⟨500, "model bad-model does not exist"⟩, ⟨[], .absent⟩) :=
  ⟨rfl, create_job_upstream_error_500_store_unchanged _ "Hello" "bad-model" none
    "tok-1" ⟨2024, 5, 17, 12, 0, 0, 0⟩ true ⟨[], .absent⟩ _ rfl⟩

/-! ### C3 -/

/-- C3: saving any job list with `save_jobs` and reloading the written file
with `load_jobs` reproduces the sequence exactly — same length and order,
same id, content, model, response and status per job, and the reconstructed
timestamp equal to the original (hence equal at sub-second precision). -/
theorem save_load_roundtrip (js : List Job)
    (h : ∀ j ∈ js, isValidDateTime j.created_at = true) :
    load_jobs (.stored (save_jobs js)) = js := by
  simp [load_jobs, mapJobs_save_jobs js h]

/-- C3 (witness): a two-job store, one timestamp with microseconds and one
without. -/
theorem save_load_roundtrip_witness :
    (∀ j ∈ [sampleJob, sampleJob2], isValidDateTime j.created_at = true) ∧
    load_jobs (.stored (save_jobs [sampleJob, sampleJob2])) =
      [sampleJob, sampleJob2] :=
  ⟨by decide, save_load_roundtrip [sampleJob, sampleJob2] (by decide)⟩

/-! ### C4 -/

/-- C4: capability resolution scans the static table in declaration order
and returns the capabilities of the first entry whose key is a literal
prefix of the model identifier; in particular `"gpt-4"` and
`"gpt-4-anything-suffixed"` both resolve to the `gpt-4` entry. -/
theorem resolve_first_matching_entry :
    resolveCapability "gpt-4" = gpt4Capability ∧
    resolveCapability "gpt-4-anything-suffixed" = gpt4Capability ∧
    ∀ (modelId : String) (pre : List (String × Capability)) (k : String)
      (c : Capability) (post : List (String × Capability)),
      model_capabilities = pre ++ (k, c) :: post →
      (∀ q ∈ pre, startswith modelId q.1 = false) →
      startswith modelId k = true →
      resolveCapability modelId = c := by
  refine ⟨by decide, by decide, ?_⟩
  intro modelId pre k c post htab hpre hk
  unfold resolveCapability
  rw [htab, find?_first (fun p => startswith modelId p.1) pre (k, c) post hpre hk]

/-- C4 (witness): the split of the table around the `gpt-4` entry for the
suffixed identifier. -/
theorem resolve_first_matching_entry_witness :
    (model_capabilities = [("gpt-4-vision-preview", gpt4VisionCapability)] ++
      ("gpt-4", gpt4Capability) ::
        [("gpt-3.5-turbo", gpt35TurboCapability), ("dall-e-3", dalle3Capability),
         ("dall-e-2", dalle2Capability)]) ∧
    (∀ q ∈ [("gpt-4-vision-preview", gpt4VisionCapability)],
      startswith "gpt-4-anything-suffixed" q.1 = false) ∧
    startswith "gpt-4-anything-suffixed" "gpt-4" = true ∧
    resolveCapability "gpt-4-anything-suffixed" = gpt4Capability :=
  ⟨by decide, by decide, by decide,
   resolve_first_matching_entry.2.2 "gpt-4-anything-suffixed"
     [("gpt-4-vision-preview", gpt4VisionCapability)] "gpt-4" gpt4Capability
     [("gpt-3.5-turbo", gpt35TurboCapability), ("dall-e-3", dalle3Capability),
      ("dall-e-2", dalle2Capability)] (by decide) (by decide) (by decide)⟩

/-! ### C5 -/

/-- C5 (counterexample): resolving an unmatched identifier does return the
sentinel, but the sentinel is NOT fully populated relative to the known
records: the `gpt-4-vision-preview` capability record carries a pricing
`image` field, and in the sentinel that field is absent rather than set to
a not-found marker. -/
theorem sentinel_missing_image_price_field :
    resolveCapability "totally-unknown-model" = unknownCapability ∧
    gpt4VisionCapability.pricing.image.isSome = true ∧
    unknownCapability.pricing.image = none := by
  decide

/-- C5 (amended): for every model identifier matching no table key,
resolution returns the sentinel record whose seven top-level fields and
pricing `input`/`output` sub-fields are all the explicit `"Not found"`
marker; the pricing `image` sub-field, present in the
`gpt-4-vision-preview` record, is however absent from the sentinel. -/
theorem resolve_unknown_returns_sentinel (modelId : String)
    (h : ∀ q ∈ model_capabilities, startswith modelId q.1 = false) :
    resolveCapability modelId = unknownCapability ∧
    unknownCapability.text_input = .notFound ∧
    unknownCapability.text_output = .notFound ∧
    unknownCapability.image_input = .notFound ∧
    unknownCapability.image_output = .notFound ∧
    unknownCapability.reasoning = .notFound ∧
    unknownCapability.speed = .notFound ∧
    unknownCapability.pricing.input = .notFound ∧
    unknownCapability.pricing.output = .notFound ∧
    unknownCapability.pricing.image = none := by
  have hnone : model_capabilities.find? (fun p => startswith modelId p.1) = none :=
    List.find?_eq_none.mpr fun x hx => by simp [h x hx]
  exact ⟨by rw [resolveCapability, hnone], rfl, rfl, rfl, rfl, rfl, rfl, rfl, rfl, rfl⟩

/-- C5 (witness): the concrete unmatched identifier named in the spec. -/
theorem resolve_unknown_returns_sentinel_witness :
    (∀ q ∈ model_capabilities, startswith "totally-unknown-model" q.1 = false) ∧
    (resolveCapability "totally-unknown-model" = unknownCapability ∧
    unknownCapability.text_input = .notFound ∧
    unknownCapability.text_output = .notFound ∧
    unknownCapability.image_input = .notFound ∧
    unknownCapability.image_output = .notFound ∧
    unknownCapability.reasoning = .notFound ∧
    unknownCapability.speed = .notFound ∧
    unknownCapability.pricing.input = .notFound ∧
    unknownCapability.pricing.output = .notFound ∧
    unknownCapability.pricing.image = none) :=
  ⟨by decide, resolve_unknown_returns_sentinel "totally-unknown-model" (by decide)⟩

/-! ### C6 -/

/-- C6: with at least one attached image (Python truthiness: a non-empty
upload list) the model used for the upstream call and recorded in the Job
is the hard-coded vision model, whatever the caller supplied — the whole
handler run is the one the vision model induces; with no images the caller
model is used unchanged. -/
theorem image_override_forces_vision_model
    (oracle : Upstream) (prompt model : String) (images : Option (List ImageBytes))
    (tok : String) (now : DateTime) (writeOk : Bool) (st : ServerState)
    (resp : String) :
    (imageList images ≠ [] → effectiveModel model images = visionModel) ∧
    (imageList images ≠ [] →
      create_job oracle prompt model images tok now writeOk st =
        create_job oracle prompt visionModel images tok now writeOk st) ∧
    (imageList images = [] → effectiveModel model images = model) ∧
    (oracle (effectiveModel model images) (buildMessages prompt images) = .ok resp →
      (create_job oracle prompt model images tok now writeOk st).1 =
        .ok ⟨makeJobId tok, prompt, effectiveModel model images, resp, now,
          "completed"⟩) := by
  have heff : imageList images ≠ [] → effectiveModel model images = visionModel := by
    intro h
    cases himg : imageList images with
    | nil => exact absurd himg h
    | cons a rest => simp [effectiveModel, himg]
  refine ⟨heff, ?_, ?_, ?_⟩
  · intro h
    have h1 := heff h
    have h2 : effectiveModel visionModel images = visionModel := by
      cases himg : imageList images with
      | nil => simp [effectiveModel, himg]
      | cons a rest => simp [effectiveModel, himg]
    rw [create_job, create_job, h1, h2]
  · intro h
    simp [effectiveModel, h]
  · intro h
    simp [create_job, h]

/-- C6 (witness): one attached image with a caller-chosen non-vision model. -/
theorem image_override_forces_vision_model_witness :
    (imageList (some [[255, 216, 255]]) ≠ [] →
      effectiveModel "gpt-3.5-turbo" (some [[255, 216, 255]]) = visionModel) ∧
    (imageList (some [[255, 216, 255]]) ≠ [] →
      create_job (okOracle sampleResp) "Hello" "gpt-3.5-turbo"
          (some [[255, 216, 255]]) "ccccc-1" ⟨2024, 5, 17, 12, 0, 0, 0⟩ true
          ⟨[], .absent⟩ =
        create_job (okOracle sampleResp) "Hello" visionModel
          (some [[255, 216, 255]]) "ccccc-1" ⟨2024, 5, 17, 12, 0, 0, 0⟩ true
          ⟨[], .absent⟩) ∧
    (imageList (some [[255, 216, 255]]) = [] →
      effectiveModel "gpt-3.5-turbo" (some [[255, 216, 255]]) = "gpt-3.5-turbo") ∧
    (okOracle sampleResp (effectiveModel "gpt-3.5-turbo" (some [[255, 216, 255]]))
        (buildMessages "Hello" (some [[255, 216, 255]])) = .ok "Hi there" →
      (create_job (okOracle sampleResp) "Hello" "gpt-3.5-turbo"
          (some [[255, 216, 255]]) "ccccc-1" ⟨2024, 5, 17, 12, 0, 0, 0⟩ true
          ⟨[], .absent⟩).1 =
        .ok ⟨makeJobId "ccccc-1", "Hello",
          effectiveModel "gpt-3.5-turbo" (some [[255, 216, 255]]), "Hi there",
          ⟨2024, 5, 17, 12, 0, 0, 0⟩, "completed"⟩) :=
  image_override_forces_vision_model (okOracle sampleResp) "Hello" "gpt-3.5-turbo"
    (some [[255, 216, 255]]) "ccccc-1" ⟨2024, 5, 17, 12, 0, 0, 0⟩ true
    ⟨[], .absent⟩ "Hi there"

/-! ### C7 -/

/-- A just-appended job with a fresh identifier is found by the scan. -/
theorem get_job_append (jobs : List Job) (j : Job) (f : FileState)
    (hfresh : ∀ y ∈ jobs, y.id ≠ j.id) :
    get_job ⟨jobs ++ [j], f⟩ j.id = .ok j := by
  simp only [get_job]
  rw [find?_first (fun job => job.id == j.id) jobs j []
    (fun y hy => by simp [hfresh y hy]) (by simp)]

/-- C7: `get_job` on an identifier carried by no stored job returns the 404
not-found error (a returned error value, not another status); and after a
successful creation whose fresh identifier no prior job carries, `get_job`
on that identifier returns exactly the Job the creation returned. -/
theorem get_job_of_created_and_404 (st : ServerState) :
    (∀ i, (∀ j ∈ st.jobs, j.id ≠ i) →
      get_job st i = .error ⟨404, "Job not found"⟩) ∧
    (∀ (oracle : Upstream) (prompt model : String)
      (images : Option (List ImageBytes)) (tok : String) (now : DateTime)
      (writeOk : Bool) (resp : String),
      oracle (effectiveModel model images) (buildMessages prompt images) = .ok resp →
      (∀ j ∈ st.jobs, j.id ≠ makeJobId tok) →
      ∀ jb st2, create_job oracle prompt model images tok now writeOk st =
        (.ok jb, st2) →
        get_job st2 jb.id = .ok jb) := by
  constructor
  · intro i hi
    rw [get_job, List.find?_eq_none.mpr fun j hj => by simp [hi j hj]]
  · intro oracle prompt model images tok now writeOk resp hok hfresh jb st2 hcreate
    simp only [create_job, hok, Prod.mk.injEq, Except.ok.injEq] at hcreate
    obtain ⟨hjb, hst2⟩ := hcreate
    subst hst2
    rw [← hjb]
    exact get_job_append st.jobs _ _ hfresh

/-- C7 (witness): a one-job store, a fresh creation, and an absent id. -/
theorem get_job_of_created_and_404_witness :
    ((∀ j ∈ (⟨[otherJob], .absent⟩ : ServerState).jobs, j.id ≠ "unknown-id") →
      get_job ⟨[otherJob], .absent⟩ "unknown-id" =
        .error ⟨404, "Job not found"⟩) ∧
    (okOracle sampleResp
        (effectiveModel "gpt-3.5-turbo" none) (buildMessages "Hello" none) =
        .ok "Hi there" →
      (∀ j ∈ (⟨[otherJob], .absent⟩ : ServerState).jobs,
        j.id ≠ makeJobId "ddddd-4") →
      ∀ jb st2, create_job (okOracle sampleResp) "Hello" "gpt-3.5-turbo" none
          "ddddd-4" ⟨2024, 5, 17, 12, 0, 0, 0⟩ true ⟨[otherJob], .absent⟩ =
        (.ok jb, st2) →
        get_job st2 jb.id = .ok jb) :=
  ⟨(get_job_of_created_and_404 ⟨[otherJob], .absent⟩).1 "unknown-id",
   fun _ _ => (get_job_of_created_and_404 ⟨[otherJob], .absent⟩).2 (okOracle sampleResp)
     "Hello" "gpt-3.5-turbo" none "ddddd-4" ⟨2024, 5, 17, 12, 0, 0, 0⟩ true
     "Hi there" rfl (by decide)⟩

/-! ### C8 -/

/-- C8: `load_jobs` is a total function into job lists — it propagates no
failure: an absent file gives the empty collection, an unreadable or
JSON-malformed file gives the empty collection, a stored array whose
reconstruction fails anywhere (e.g. an unparseable timestamp) gives the
empty collection; in every remaining case it returns the fully
reconstructed list. -/
theorem load_jobs_total_default_empty :
    load_jobs .absent = [] ∧
    load_jobs .unreadable = [] ∧
    (∀ recs, mapJobs recs = none → load_jobs (.stored recs) = []) ∧
    (∀ fs, load_jobs fs = [] ∨
      ∃ recs, fs = .stored recs ∧ mapJobs recs = some (load_jobs fs)) := by
  refine ⟨rfl, rfl, ?_, ?_⟩
  · intro recs h
    simp [load_jobs, h]
  · intro fs
    cases fs with
    | absent => exact Or.inl rfl
    | unreadable => exact Or.inl rfl
    | stored recs =>
      cases hm : mapJobs recs with
      | none => exact Or.inl (by simp [load_jobs, hm])
      | some js => exact Or.inr ⟨recs, rfl, by simp [load_jobs, hm]⟩

/-- C8 (witness): a file holding a record with an unparseable timestamp. -/
theorem load_jobs_total_default_empty_witness :
    mapJobs [badRecord] = none ∧ load_jobs (.stored [badRecord]) = [] :=
  ⟨by decide, load_jobs_total_default_empty.2.2.1 [badRecord] (by decide)⟩

/-! ### C9 -/

/-- C9: a failed persistence write during a successful creation (modelled by
`writeOk = false`: `save_jobs` absorbs the raised exception) leaves the
in-memory append and the HTTP response exactly as in the successful-write
run — the new job is appended, returned to the caller, and only the file
differs. -/
theorem save_failure_keeps_append_and_response
    (oracle : Upstream) (prompt model : String) (images : Option (List ImageBytes))
    (tok : String) (now : DateTime) (st : ServerState) (resp : String)
    (h : oracle (effectiveModel model images) (buildMessages prompt images) =
      .ok resp) :
    create_job oracle prompt model images tok now false st =
      (.ok ⟨makeJobId tok, prompt, effectiveModel model images, resp, now,
        "completed"⟩,
       ⟨st.jobs ++ [⟨makeJobId tok, prompt, effectiveModel model images, resp, now,
        "completed"⟩], st.file⟩) ∧
    (create_job oracle prompt model images tok now false st).1 =
      (create_job oracle prompt model images tok now true st).1 ∧
    (create_job oracle prompt model images tok now false st).2.jobs =
      (create_job oracle prompt model images tok now true st).2.jobs := by
  refine ⟨?_, ?_, ?_⟩ <;> simp [create_job, h]

/-- C9 (witness): a concrete creation whose file write fails. -/
theorem save_failure_keeps_append_and_response_witness :
    (okOracle sampleResp (effectiveModel "gpt-3.5-turbo" none)
        (buildMessages "Hello" none) = .ok "Hi there") ∧
    (create_job (okOracle sampleResp) "Hello" "gpt-3.5-turbo" none "eeeee-5"
        ⟨2024, 5, 17, 12, 0, 0, 0⟩ false ⟨[], .absent⟩ =
      (.ok ⟨makeJobId "eeeee-5", "Hello",
         effectiveModel "gpt-3.5-turbo" none, "Hi there",
         ⟨2024, 5, 17, 12, 0, 0, 0⟩, "completed"⟩,
       ⟨[] ++ [⟨makeJobId "eeeee-5", "Hello",
         effectiveModel "gpt-3.5-turbo" none, "Hi there",
         ⟨2024, 5, 17, 12, 0, 0, 0⟩, "completed"⟩], FileState.absent⟩) ∧
    (create_job (okOracle sampleResp) "Hello" "gpt-3.5-turbo" none "eeeee-5"
        ⟨2024, 5, 17, 12, 0, 0, 0⟩ false ⟨[], .absent⟩).1 =
      (create_job (okOracle sampleResp) "Hello" "gpt-3.5-turbo" none "eeeee-5"
        ⟨2024, 5, 17, 12, 0, 0, 0⟩ true ⟨[], .absent⟩).1 ∧
    (create_job (okOracle sampleResp) "Hello" "gpt-3.5-turbo" none "eeeee-5"
        ⟨2024, 5, 17, 12, 0, 0, 0⟩ false ⟨[], .absent⟩).2.jobs =
      (create_job (okOracle sampleResp) "Hello" "gpt-3.5-turbo" none "eeeee-5"
        ⟨2024, 5, 17, 12, 0, 0, 0⟩ true ⟨[], .absent⟩).2.jobs) :=
  ⟨rfl, save_failure_keeps_append_and_response (okOracle sampleResp) "Hello"
    "gpt-3.5-turbo" none "eeeee-5" ⟨2024, 5, 17, 12, 0, 0, 0⟩ ⟨[], .absent⟩
    "Hi there" rfl⟩

/-! ### C10 -/

/-- C10: when the store holds several jobs sharing an identifier, `get_job`
returns the earliest-inserted one: whenever the job list splits as a block
of non-matching jobs followed by a matching job `j`, the linear scan
returns `j`, whatever follows it. -/
theorem get_job_first_match (st : ServerState) (pre post : List Job) (j : Job)
    (i : String) (hst : st.jobs = pre ++ j :: post)
    (hpre : ∀ k ∈ pre, k.id ≠ i) (hj : j.id = i) :
    get_job st i = .ok j := by
  rw [get_job, hst, find?_first (fun job => job.id == i) pre j post
    (fun y hy => by simp [hpre y hy]) (by simp [hj])]

/-- C10 (witness): a store with two jobs carrying the same identifier (and
an unrelated first job); the lookup returns the earlier duplicate. -/
theorem get_job_first_match_witness :
    ((⟨[otherJob, dupJobEarly, dupJobLate], .absent⟩ : ServerState).jobs =
      [otherJob] ++ dupJobEarly :: [dupJobLate]) ∧
    (∀ k ∈ [otherJob], k.id ≠ "llmjobid:aaaaa") ∧
    dupJobEarly.id = "llmjobid:aaaaa" ∧
    get_job ⟨[otherJob, dupJobEarly, dupJobLate], .absent⟩ "llmjobid:aaaaa" =
      .ok dupJobEarly :=
  ⟨by decide, by decide, by decide,
   get_job_first_match ⟨[otherJob, dupJobEarly, dupJobLate], .absent⟩ [otherJob]
     [dupJobLate] dupJobEarly "llmjobid:aaaaa" (by decide) (by decide) (by decide)⟩

end MainPy
